import Mathlib

/-!
# Verification of the radish CLI orchestration layer (`radish/main.py`)

This file embeds the orchestration layer of the radish behaviour-driven test
runner: configuration construction (`setup_config`), feature-file discovery,
run-plan building (sequential feature ids and a global scenario-id space),
marker resolution, scenario-filter parsing and validation, and the top-level
sequencing of `main`.

External collaborators that are not part of the given source
(`FeatureParser`, `utils.recursive_glob`, `Loader`, `Matcher`, `Runner`) are
modelled: the parser and the glob from the specification's interface
contracts, the rest as opaque invocation events recorded in a trace.
-/

namespace Radish

/-- A value attached to a raw docopt argument: a string, a boolean flag,
a list of strings (for `<features>...`), or Python `None`. -/
inductive ArgValue where
  | str (s : String)
  | flag (b : Bool)
  | strs (l : List String)
  | null
  deriving DecidableEq, Repr

/-- Python `str.replace(pat, rep)`: replace all non-overlapping occurrences
of `pat` left to right.  Fuel-based structural recursion so that the kernel
can evaluate it; `s.length` fuel always suffices for a non-empty pattern. -/
def pyReplaceFuel : Nat → List Char → List Char → List Char → List Char
  | 0, s, _, _ => s
  | _ + 1, [], _, _ => []
  | fuel + 1, c :: rest, pat, rep =>
    if pat ≠ [] ∧ pat.isPrefixOf (c :: rest) then
      rep ++ pyReplaceFuel fuel ((c :: rest).drop pat.length) pat rep
    else
      c :: pyReplaceFuel fuel rest pat rep

/-- Python `s.replace(pat, rep)` on strings. -/
def pyReplace (s pat rep : String) : String :=
  String.mk (pyReplaceFuel s.data.length s.data pat.data rep.data)

/-- The key mangling of `setup_config` (main.py line 35):
`key.replace("--", "").replace("-", "_").replace("<", "").replace(">", "")`. -/
def mangleKey (k : String) : String :=
  pyReplace (pyReplace (pyReplace (pyReplace k "--" "") "-" "_") "<" "") ">" ""

/-- `setup_config` (main.py lines 30-37): for every raw docopt argument,
derive a config attribute name by the replace chain and store the value.
The dynamic config object is modelled as the association list of attributes
set, in iteration order; there is no failure path. -/
def setup_config (arguments : List (String × ArgValue)) : List (String × ArgValue) :=
  arguments.map (fun kv => (mangleKey kv.1, kv.2))

/-- A filesystem entry for a path given on the command line: a plain file,
or a directory.  A directory carries the result of
`utils.recursive_glob(dir, "*.feature")`.

Modelled from the spec: `utils.recursive_glob` is external to the given
source (radish/utils.py is not in src/); per §4.2 it returns every file
beneath the directory whose name matches the `.feature` suffix, in a
deterministic recursive traversal order.  That resulting ordered list is
stored in the entry; a missing path has no entry. -/
inductive FSEntry where
  | file
  | dir (globbed : List String)
  deriving DecidableEq, Repr

/-- The filesystem as seen by `os.path.exists` / `os.path.isdir` /
`recursive_glob`: a partial map from path to entry. -/
def FileSystem : Type := String → Option FSEntry

/-- Feature-file discovery (main.py lines 93-102): for each given feature
path in argument order, a missing path raises `FeatureFileNotFoundError`
immediately; a directory is expanded by `recursive_glob` and the results
extended onto the list; a plain file is appended as-is. -/
def discoverFiles (fs : FileSystem) : List String → Except String (List String)
  | [] => .ok []
  | p :: rest =>
    match fs p with
    | none => .error p
    | some (.dir globbed) => (discoverFiles fs rest).map (fun l => globbed ++ l)
    | some .file => (discoverFiles fs rest).map (fun l => p :: l)

/-- A parsed feature as the orchestrator sees it: its assigned feature id,
its source path, and the global scenario identifiers assigned to its
scenarios. -/
structure Feature where
  fid : Nat
  path : String
  scenarioIds : List Nat
  deriving DecidableEq, Repr

/-- Modelled from the spec: the external `FeatureParser`
(radish/parser.py, not in src/).  Per the spec's interface
`Parser.parse(path, featureId, startScenarioId) -> (ParsedFeature, nextScenarioId)`
and data-model invariant 2, a file containing `k` scenarios is assigned the
`k` consecutive global scenario identifiers that follow the running
counter; `current_abs_scenario_id` afterwards is the last identifier
consumed.  The scenario count of a file is the opaque input `counts path`. -/
def featureParserParse (counts : String → Nat) (path : String) (featureId : Nat)
    (absId : Nat) : Feature × Nat :=
  let k := counts path
  ({ fid := featureId, path := path,
     scenarioIds := (List.range k).map (fun j => absId + 1 + j) }, absId + k)

/-- The run-plan building loop (main.py lines 104-110):
`for featureid, featurefile in enumerate(feature_files)` invokes the parser
with `featureid + 1` and the running `abs_scenario_id` (initially 0), and
threads `featureparser.current_abs_scenario_id` into the next iteration.
`fid` is the 0-based index of the head of the remaining list. -/
def parseAll (counts : String → Nat) : List String → Nat → Nat → List Feature × Nat
  | [], _, absId => ([], absId)
  | f :: rest, fid, absId =>
    let parsed := featureParserParse counts f (fid + 1) absId
    let tail := parseAll counts rest (fid + 1) parsed.2
    (parsed.1 :: tail.1, tail.2)

/-- The parsed features of a run, as built starting from feature index 0 and
`abs_scenario_id = 0`. -/
def featuresOf (counts : String → Nat) (files : List String) : List Feature :=
  (parseAll counts files 0 0).1

/-- The marker field of the config: the raw string from docopt, or the
integer it is overwritten with by `world.config.marker = int(time())`. -/
inductive MarkerVal where
  | str (s : String)
  | num (n : Nat)
  deriving DecidableEq, Repr

/-- The docopt default for the marker option: the sentinel `[default: time.time()]`
from the usage string. -/
def defaultMarker : String := "time.time()"

/-- Marker resolution (main.py lines 125-126):
`if world.config.marker == "time.time()": world.config.marker = int(time())`,
with `now` the wall-clock epoch seconds at resolution time. -/
def resolveMarker (m : MarkerVal) (now : Nat) : MarkerVal :=
  match m with
  | .str s => if s = "time.time()" then .num now else .str s
  | .num n => .num n

/-- The scenarios field of the config: the raw docopt value (`None` or a
string), or the integer list it is overwritten with by
`world.config.scenarios = [int(s) for s in world.config.scenarios.split(",")]`. -/
inductive ScenVal where
  | raw (s : Option String)
  | parsed (l : List Int)
  deriving DecidableEq, Repr

/-- The typed view of the config attributes that `main` reads.  `others`
holds every remaining attribute set by `setup_config`. -/
structure Config where
  features : List String
  basedir : String
  marker : MarkerVal
  scenarios : ScenVal
  early_exit : Bool
  others : List (String × ArgValue)
  deriving DecidableEq, Repr

/-- Python `s.split(",")` accumulator: `acc` is the current token reversed. -/
def splitCommasAux : List Char → List Char → List String
  | [], acc => [String.mk acc.reverse]
  | c :: rest, acc =>
    if c = ',' then String.mk acc.reverse :: splitCommasAux rest []
    else splitCommasAux rest (c :: acc)

/-- Python `s.split(",")`: `"".split(",") = [""]`, `"3,".split(",") = ["3", ""]`. -/
def splitCommas (s : String) : List String := splitCommasAux s.data []

/-- Digits to the natural number they denote in base 10. -/
def digitsToNat (l : List Char) : Nat :=
  l.foldl (fun a c => a * 10 + (c.toNat - '0'.toNat)) 0

/-- Python `int(token)` on a whitespace-stripped character list: an optional
sign followed by a non-empty digit string; anything else raises `ValueError`. -/
def pyIntCore : List Char → Option Int
  | '+' :: rest =>
    if rest ≠ [] ∧ rest.all Char.isDigit then some (digitsToNat rest) else none
  | '-' :: rest =>
    if rest ≠ [] ∧ rest.all Char.isDigit then some (-(digitsToNat rest : Int)) else none
  | l => if l ≠ [] ∧ l.all Char.isDigit then some (digitsToNat l) else none

/-- Python `int(token)`: surrounding whitespace is ignored. -/
def pyInt? (s : String) : Option Int :=
  pyIntCore (((s.data.dropWhile Char.isWhitespace).reverse.dropWhile
    Char.isWhitespace).reverse)

/-- The list comprehension `[int(s) for s in ...]` (main.py line 130):
tokens are converted left to right; the first malformed token raises
`ValueError`, carried as the offending token. -/
def parseScenarioTokens : List String → Except String (List Int)
  | [] => .ok []
  | t :: rest =>
    match pyInt? t with
    | none => .error t
    | some n => (parseScenarioTokens rest).map (fun l => n :: l)

/-- The bounds-check loop (main.py lines 132-134): the first `s` with
`s <= 0 or s > amount_of_scenarios` raises `ScenarioNotFoundError(s, amount)`. -/
def firstViolation (total : Nat) : List Int → Option Int
  | [] => none
  | s :: rest =>
    if s ≤ 0 ∨ s > (total : Int) then some s else firstViolation total rest

/-- The exceptions `main` can raise into the error boundary. -/
inductive RunError where
  | featureFileNotFound (path : String)
  | valueError (token : String)
  | scenarioNotFound (id : Int) (total : Nat)
  deriving DecidableEq, Repr

/-- The outcome of `main`: a returned status code, or a raised exception. -/
inductive Outcome where
  | ret (code : Nat)
  | err (e : RunError)
  deriving DecidableEq, Repr

/-- Which collaborators `main` invoked during a run, and which files were
handed to the parser. -/
structure Trace where
  parsedFiles : List String := []
  loaderInvoked : Bool := false
  matcherInvoked : Bool := false
  engineInvoked : Bool := false
  deriving DecidableEq, Repr

/-- The scenario-filter step (main.py lines 129-134): skipped when
`world.config.scenarios` is falsy (Python: `None` or the empty string);
otherwise the string is split on commas and converted, the config field is
overwritten with the integer list, and the first out-of-bounds entry raises
`ScenarioNotFoundError` before `runner.start` is reached. -/
def scenarioStep (cfg : Config) (total : Nat) (tr : Trace) :
    Outcome × Trace × Config :=
  match cfg.scenarios with
  | .raw (some s) =>
    if s = "" then (.ret 0, { tr with engineInvoked := true }, cfg)
    else
      match parseScenarioTokens (splitCommas s) with
      | .error tok => (.err (.valueError tok), tr, cfg)
      | .ok l =>
        let cfg2 := { cfg with scenarios := .parsed l }
        match firstViolation total l with
        | some sbad => (.err (.scenarioNotFound sbad total), tr, cfg2)
        | none => (.ret 0, { tr with engineInvoked := true }, cfg2)
  | _ => (.ret 0, { tr with engineInvoked := true }, cfg)

/-- `main` (main.py lines 90-138) after `setup_config`: discovery, the
parse loop, the `if not features: return 1` check, Loader and Matcher
invocation, marker resolution, the scenario filter, and `runner.start`.
`now` is the wall clock at marker-resolution time. -/
def mainRun (fs : FileSystem) (counts : String → Nat) (now : Nat) (cfg : Config) :
    Outcome × Trace × Config :=
  match discoverFiles fs cfg.features with
  | .error p => (.err (.featureFileNotFound p), {}, cfg)
  | .ok files =>
    let feats := featuresOf counts files
    if feats = [] then
      (.ret 1, { parsedFiles := files }, cfg)
    else
      let cfg1 := { cfg with marker := resolveMarker cfg.marker now }
      let total := (feats.map (fun f => f.scenarioIds.length)).sum
      scenarioStep cfg1 total
        { parsedFiles := files, loaderInvoked := true, matcherInvoked := true }

/-- The expansion a single (existing) path contributes to discovery:
a directory contributes its glob result, a plain file contributes itself. -/
def expandPath (fs : FileSystem) (p : String) : List String :=
  match fs p with
  | some (.dir globbed) => globbed
  | _ => [p]

/-- Scenario count of whatever comes before index `i` in the file list. -/
def prefixCount (counts : String → Nat) (files : List String) (i : Nat) : Nat :=
  ((files.take i).map counts).sum

/-- Total scenario count of the run. -/
def totalCount (counts : String → Nat) (files : List String) : Nat :=
  (files.map counts).sum

/-! ## Helper lemmas -/

theorem parseAll_fst_length (counts : String → Nat) (files : List String)
    (fid absId : Nat) : ((parseAll counts files fid absId).1).length = files.length := by
  induction files generalizing fid absId with
  | nil => rfl
  | cons f rest ih => simp [parseAll, ih]

theorem parseAll_fst_eq_nil (counts : String → Nat) (files : List String)
    (fid absId : Nat) : (parseAll counts files fid absId).1 = [] ↔ files = [] := by
  constructor
  · intro h
    have := parseAll_fst_length counts files fid absId
    rw [h] at this
    exact List.length_eq_zero.mp this.symm
  · intro h; subst h; rfl

theorem parseAll_getElem? (counts : String → Nat) (files : List String)
    (fid absId i : Nat) :
    ((parseAll counts files fid absId).1)[i]? = (files[i]?).map
      (fun p => (featureParserParse counts p (fid + i + 1)
        (absId + ((files.take i).map counts).sum)).1) := by
  induction files generalizing fid absId i with
  | nil => simp [parseAll]
  | cons f rest ih =>
    cases i with
    | zero => simp [parseAll]
    | succ j =>
      simp only [parseAll, featureParserParse, List.getElem?_cons_succ,
        List.take_succ_cons, List.map_cons, List.sum_cons]
      rw [ih]
      simp only [featureParserParse]
      have h1 : fid + 1 + j + 1 = fid + (j + 1) + 1 := by omega
      have h2 : absId + counts f + ((rest.take j).map counts).sum
          = absId + (counts f + ((rest.take j).map counts).sum) := by omega
      rw [h1, h2]

theorem parseAll_snd (counts : String → Nat) (files : List String)
    (fid absId : Nat) :
    (parseAll counts files fid absId).2 = absId + totalCount counts files := by
  induction files generalizing fid absId with
  | nil => simp [parseAll, totalCount]
  | cons f rest ih =>
    simp only [parseAll, featureParserParse, ih, totalCount, List.map_cons,
      List.sum_cons]
    omega

theorem parseAll_flatten (counts : String → Nat) (files : List String)
    (fid absId : Nat) :
    (((parseAll counts files fid absId).1).map (fun f => f.scenarioIds)).flatten =
      (List.range (totalCount counts files)).map (fun j => absId + 1 + j) := by
  induction files generalizing fid absId with
  | nil => simp [parseAll, totalCount]
  | cons f rest ih =>
    simp only [parseAll, featureParserParse, List.map_cons, List.flatten_cons, ih,
      totalCount, List.sum_cons, List.range_add, List.map_append, List.map_map]
    congr 1
    apply List.map_congr_left
    intro j _
    simp only [Function.comp_apply]
    omega

theorem parseAll_scenario_sum (counts : String → Nat) (files : List String)
    (fid absId : Nat) :
    (((parseAll counts files fid absId).1).map
      (fun f => f.scenarioIds.length)).sum = totalCount counts files := by
  induction files generalizing fid absId with
  | nil => simp [parseAll, totalCount]
  | cons f rest ih =>
    simp [parseAll, featureParserParse, ih, totalCount]

theorem firstViolation_eq_none (total : Nat) (l : List Int) :
    firstViolation total l = none ↔ ∀ x ∈ l, 1 ≤ x ∧ x ≤ (total : Int) := by
  induction l with
  | nil => simp [firstViolation]
  | cons s rest ih =>
    by_cases h : s ≤ 0 ∨ s > (total : Int)
    · simp only [firstViolation, if_pos h, List.mem_cons]
      constructor
      · intro hc; exact absurd hc (by simp)
      · intro hall
        have := hall s (Or.inl rfl)
        omega
    · simp only [firstViolation, if_neg h, ih, List.mem_cons]
      constructor
      · rintro hall x (rfl | hx)
        · omega
        · exact hall x hx
      · intro hall x hx; exact hall x (Or.inr hx)

theorem firstViolation_eq_some (total : Nat) (l : List Int) (s : Int)
    (h : firstViolation total l = some s) :
    (s ≤ 0 ∨ s > (total : Int)) ∧
      ∃ pre post, l = pre ++ s :: post ∧
        ∀ x ∈ pre, 1 ≤ x ∧ x ≤ (total : Int) := by
  induction l with
  | nil => simp [firstViolation] at h
  | cons a rest ih =>
    by_cases ha : a ≤ 0 ∨ a > (total : Int)
    · simp only [firstViolation, if_pos ha, Option.some.injEq] at h
      subst h
      exact ⟨ha, [], rest, rfl, by simp⟩
    · simp only [firstViolation, if_neg ha] at h
      obtain ⟨hs, pre, post, hl, hpre⟩ := ih h
      refine ⟨hs, a :: pre, post, by simp [hl], ?_⟩
      intro x hx
      rcases List.mem_cons.mp hx with rfl | hx2
      · omega
      · exact hpre x hx2

theorem parseScenarioTokens_ok_iff (toks : List String) (l : List Int) :
    parseScenarioTokens toks = .ok l ↔
      List.Forall₂ (fun t n => pyInt? t = some n) toks l := by
  induction toks generalizing l with
  | nil =>
    simp only [parseScenarioTokens]
    constructor
    · rintro h
      cases l with
      | nil => exact List.Forall₂.nil
      | cons x xs => simp at h
    · intro h; cases h; rfl
  | cons t rest ih =>
    simp only [parseScenarioTokens]
    rcases hp : pyInt? t with _ | n
    · constructor
      · intro h; simp at h
      · intro h
        cases h with
        | cons hh _ => rw [hp] at hh; exact absurd hh (by simp)
    · constructor
      · intro h
        rcases hr : parseScenarioTokens rest with e | l2
        · rw [hr] at h; simp [Except.map] at h
        · rw [hr] at h
          simp only [Except.map, Except.ok.injEq] at h
          subst h
          exact List.Forall₂.cons hp ((ih l2).mp hr)
      · intro h
        cases h with
        | cons hh htail =>
          rw [hp] at hh
          obtain rfl : n = _ := by simpa using hh
          rw [(ih _).mpr htail]
          rfl

theorem parseScenarioTokens_error (toks : List String) (tok : String)
    (h : parseScenarioTokens toks = .error tok) :
    tok ∈ toks ∧ pyInt? tok = none := by
  induction toks with
  | nil => simp [parseScenarioTokens] at h
  | cons t rest ih =>
    simp only [parseScenarioTokens] at h
    rcases hp : pyInt? t with _ | n
    · rw [hp] at h
      obtain rfl : tok = t := by simpa using h.symm
      exact ⟨List.mem_cons_self _ _, hp⟩
    · rw [hp] at h
      rcases hr : parseScenarioTokens rest with e | l2
      · rw [hr] at h
        simp only [Except.map, Except.error.injEq] at h
        subst h
        obtain ⟨hm, hn⟩ := ih hr
        exact ⟨List.mem_cons_of_mem _ hm, hn⟩
      · rw [hr] at h; simp [Except.map] at h

theorem resolveMarker_of_ne (m : MarkerVal) (now : Nat)
    (h : m ≠ .str "time.time()") : resolveMarker m now = m := by
  cases m with
  | str s =>
    have : s ≠ "time.time()" := fun hc => h (by rw [hc])
    simp [resolveMarker, this]
  | num n => rfl

theorem discoverFiles_error_append (fs : FileSystem) (pre : List String)
    (p : String) (post : List String) (hp : fs p = none)
    (hpre : ∀ q ∈ pre, fs q ≠ none) :
    discoverFiles fs (pre ++ p :: post) = .error p := by
  induction pre with
  | nil => simp [discoverFiles, hp]
  | cons q rest ih =>
    have hq : fs q ≠ none := hpre q (List.mem_cons_self _ _)
    have hrest : ∀ r ∈ rest, fs r ≠ none :=
      fun r hr => hpre r (List.mem_cons_of_mem _ hr)
    simp only [List.cons_append, discoverFiles]
    rcases he : fs q with _ | entry
    · exact absurd he hq
    · cases entry <;> simp [ih hrest, Except.map]

theorem discoverFiles_ok (fs : FileSystem) (paths : List String)
    (h : ∀ p ∈ paths, fs p ≠ none) :
    discoverFiles fs paths = .ok (paths.flatMap (expandPath fs)) := by
  induction paths with
  | nil => simp [discoverFiles]
  | cons p rest ih =>
    have hp : fs p ≠ none := h p (List.mem_cons_self _ _)
    have hrest : ∀ r ∈ rest, fs r ≠ none :=
      fun r hr => h r (List.mem_cons_of_mem _ hr)
    simp only [discoverFiles, List.flatMap_cons]
    rcases he : fs p with _ | entry
    · exact absurd he hp
    · cases entry <;> simp [ih hrest, Except.map, expandPath, he]

theorem mainRun_discover_error (fs : FileSystem) (counts : String → Nat)
    (now : Nat) (cfg : Config) (p : String)
    (hd : discoverFiles fs cfg.features = .error p) :
    mainRun fs counts now cfg = (.err (.featureFileNotFound p), {}, cfg) := by
  simp [mainRun, hd]

theorem mainRun_discover_ok (fs : FileSystem) (counts : String → Nat)
    (now : Nat) (cfg : Config) (files : List String)
    (hd : discoverFiles fs cfg.features = .ok files) (hne : files ≠ []) :
    mainRun fs counts now cfg =
      scenarioStep { cfg with marker := resolveMarker cfg.marker now }
        (totalCount counts files)
        { parsedFiles := files, loaderInvoked := true, matcherInvoked := true } := by
  have hfeats : featuresOf counts files ≠ [] := by
    rw [featuresOf, Ne, parseAll_fst_eq_nil]
    exact hne
  simp only [mainRun, hd, if_neg hfeats]
  rw [featuresOf, parseAll_scenario_sum]

theorem mainRun_empty (fs : FileSystem) (counts : String → Nat)
    (now : Nat) (cfg : Config)
    (hd : discoverFiles fs cfg.features = .ok []) :
    mainRun fs counts now cfg = (.ret 1, { parsedFiles := [] }, cfg) := by
  simp [mainRun, hd, featuresOf, parseAll]

theorem scenarioStep_config (cfg : Config) (total : Nat) (tr : Trace) :
    (scenarioStep cfg total tr).2.2 = cfg ∨
    ∃ l, (scenarioStep cfg total tr).2.2 = { cfg with scenarios := .parsed l } := by
  rcases h : cfg.scenarios with s | l
  · rcases s with _ | s
    · left; simp [scenarioStep, h]
    · by_cases hs : s = ""
      · left; simp [scenarioStep, h, hs]
      · rcases hpt : parseScenarioTokens (splitCommas s) with tok | l
        · left; simp [scenarioStep, h, hs, hpt]
        · rcases hfv : firstViolation total l with _ | sbad
          · right; exact ⟨l, by simp [scenarioStep, h, hs, hpt, hfv]⟩
          · right; exact ⟨l, by simp [scenarioStep, h, hs, hpt, hfv]⟩
  · left; simp [scenarioStep, h]

theorem scenarioStep_marker (cfg : Config) (total : Nat) (tr : Trace) :
    ((scenarioStep cfg total tr).2.2).marker = cfg.marker := by
  rcases scenarioStep_config cfg total tr with h | ⟨l, h⟩ <;> simp [h]

theorem scenarioStep_base_fields (cfg : Config) (total : Nat) (tr : Trace) :
    ((scenarioStep cfg total tr).2.2).features = cfg.features ∧
    ((scenarioStep cfg total tr).2.2).basedir = cfg.basedir ∧
    ((scenarioStep cfg total tr).2.2).early_exit = cfg.early_exit ∧
    ((scenarioStep cfg total tr).2.2).others = cfg.others := by
  rcases scenarioStep_config cfg total tr with h | ⟨l, h⟩ <;> simp [h]

theorem scenarioStep_config_of_no_filter (cfg : Config) (total : Nat) (tr : Trace)
    (h : cfg.scenarios = .raw none ∨ cfg.scenarios = .raw (some "")) :
    (scenarioStep cfg total tr).2.2 = cfg := by
  rcases h with h | h <;> simp [scenarioStep, h]

/-! ## Claim theorems -/

/-- C1: For every non-empty discovered file sequence, the run-plan builder
parses the files in discovery order, the file at 0-based position `i`
receiving feature identifier `i + 1`; its scenario identifiers are exactly
the contiguous block that follows the scenarios contributed by the earlier
files, and the concatenation of all assigned scenario identifiers, in
order, is exactly the list `1, 2, ..., totalScenarioCount`, so every
identifier in that range is used exactly once. -/
theorem C1_run_plan_identifiers (counts : String → Nat) (files : List String)
    (i : Nat) (p : String) (hip : files[i]? = some p) :
    (featuresOf counts files).length = files.length ∧
    (featuresOf counts files)[i]? = some
      { fid := i + 1, path := p,
        scenarioIds := (List.range (counts p)).map
          (fun j => prefixCount counts files i + 1 + j) } ∧
    ((featuresOf counts files).map (fun f => f.scenarioIds)).flatten =
      (List.range (totalCount counts files)).map (fun j => 1 + j) := by
  refine ⟨parseAll_fst_length counts files 0 0, ?_, ?_⟩
  · rw [featuresOf, parseAll_getElem? counts files 0 0 i, hip]
    simp [featureParserParse, prefixCount]
  · rw [featuresOf, parseAll_flatten counts files 0 0]

/-- C1 witness: two files with 2 and 3 scenarios; the second file gets
feature id 2 and scenario ids 3, 4, 5, and the whole run uses ids 1..5. -/
theorem C1_run_plan_identifiers_witness :
    (["a.feature", "b.feature"] : List String)[1]? = some "b.feature" ∧
    ((featuresOf (fun p => if p = "a.feature" then 2 else 3)
        ["a.feature", "b.feature"]).length = 2 ∧
     (featuresOf (fun p => if p = "a.feature" then 2 else 3)
        ["a.feature", "b.feature"])[1]? = some
        { fid := 2, path := "b.feature",
          scenarioIds := (List.range
            ((fun p => if p = "a.feature" then 2 else 3) "b.feature")).map
              (fun j => prefixCount (fun p => if p = "a.feature" then 2 else 3)
                ["a.feature", "b.feature"] 1 + 1 + j) } ∧
     ((featuresOf (fun p => if p = "a.feature" then 2 else 3)
        ["a.feature", "b.feature"]).map (fun f => f.scenarioIds)).flatten =
       (List.range (totalCount (fun p => if p = "a.feature" then 2 else 3)
         ["a.feature", "b.feature"])).map (fun j => 1 + j)) :=
  ⟨by decide,
   C1_run_plan_identifiers (fun p => if p = "a.feature" then 2 else 3)
     ["a.feature", "b.feature"] 1 "b.feature" (by decide)⟩

/-- C3: a non-existent path aborts discovery with `FeatureFileNotFoundError`
carrying that path, as soon as it is reached in argument order: no later
path is looked at, no file is parsed, and no collaborator is invoked. -/
theorem C3_path_not_found_fail_fast (fs : FileSystem) (counts : String → Nat)
    (now : Nat) (cfg : Config) (pre : List String) (p : String)
    (post : List String) (hf : cfg.features = pre ++ p :: post)
    (hp : fs p = none) (hpre : ∀ q ∈ pre, fs q ≠ none) :
    discoverFiles fs cfg.features = .error p ∧
    mainRun fs counts now cfg =
      (.err (.featureFileNotFound p),
       { parsedFiles := [], loaderInvoked := false, matcherInvoked := false,
         engineInvoked := false }, cfg) := by
  have hd : discoverFiles fs cfg.features = .error p := by
    rw [hf]; exact discoverFiles_error_append fs pre p post hp hpre
  exact ⟨hd, mainRun_discover_error fs counts now cfg p hd⟩

/-- C3 witness: the second of three path arguments is missing; discovery
reports exactly it and the run parses nothing, although the third path is
also missing and the first exists. -/
theorem C3_path_not_found_fail_fast_witness :
    discoverFiles
      (fun q => if q = "ok.feature" then some .file else none)
      ["ok.feature", "missing", "also-missing"] = .error "missing" ∧
    mainRun (fun q => if q = "ok.feature" then some .file else none)
      (fun _ => 1) 0
      { features := ["ok.feature", "missing", "also-missing"], basedir := "b",
        marker := .str "time.time()", scenarios := .raw none,
        early_exit := false, others := [] } =
      (.err (.featureFileNotFound "missing"),
       { parsedFiles := [], loaderInvoked := false, matcherInvoked := false,
         engineInvoked := false },
       { features := ["ok.feature", "missing", "also-missing"], basedir := "b",
         marker := .str "time.time()", scenarios := .raw none,
         early_exit := false, others := [] }) :=
  C3_path_not_found_fail_fast
    (fun q => if q = "ok.feature" then some .file else none) (fun _ => 1) 0
    { features := ["ok.feature", "missing", "also-missing"], basedir := "b",
      marker := .str "time.time()", scenarios := .raw none,
      early_exit := false, others := [] }
    ["ok.feature"] "missing" ["also-missing"] rfl (by decide) (by decide)

/-- C4: when discovery yields no files, the run returns status 1 — a
returned value, not a raised exception — parses nothing, and never invokes
the Loader, the Matcher, or the execution engine. -/
theorem C4_no_specification_files (fs : FileSystem) (counts : String → Nat)
    (now : Nat) (cfg : Config)
    (hd : discoverFiles fs cfg.features = .ok []) :
    mainRun fs counts now cfg =
      (.ret 1,
       { parsedFiles := [], loaderInvoked := false, matcherInvoked := false,
         engineInvoked := false }, cfg) :=
  mainRun_empty fs counts now cfg hd

/-- C4 witness: a single directory argument whose recursive glob is empty
discovers no files, and the run returns 1 touching no collaborator. -/
theorem C4_no_specification_files_witness :
    discoverFiles (fun q => if q = "specs" then some (.dir []) else none)
      ["specs"] = .ok [] ∧
    mainRun (fun q => if q = "specs" then some (.dir []) else none)
      (fun _ => 1) 0
      { features := ["specs"], basedir := "b", marker := .str "time.time()",
        scenarios := .raw none, early_exit := false, others := [] } =
      (.ret 1,
       { parsedFiles := [], loaderInvoked := false, matcherInvoked := false,
         engineInvoked := false },
       { features := ["specs"], basedir := "b", marker := .str "time.time()",
         scenarios := .raw none, early_exit := false, others := [] }) :=
  ⟨by rfl,
   C4_no_specification_files
     (fun q => if q = "specs" then some (.dir []) else none) (fun _ => 1) 0
     { features := ["specs"], basedir := "b", marker := .str "time.time()",
       scenarios := .raw none, early_exit := false, others := [] } (by rfl)⟩

/-- C2: with a scenario filter supplied, the first parsed id violating
`1 ≤ id ≤ totalScenarioCount` aborts the run with
`ScenarioNotFoundError(id, total)` before the execution engine is invoked,
even when the remaining entries are valid (the violating entry is preceded
only by in-bounds entries); validity of the whole filter is equivalent to
every entry being in bounds, hence independent of entry order, and a fully
in-bounds filter lets the run reach the engine. -/
theorem C2_scenario_filter_bounds (fs : FileSystem) (counts : String → Nat)
    (now : Nat) (cfg : Config) (files : List String) (s : String)
    (l : List Int) (hd : discoverFiles fs cfg.features = .ok files)
    (hne : files ≠ []) (hs : cfg.scenarios = .raw (some s)) (hs0 : s ≠ "")
    (hp : parseScenarioTokens (splitCommas s) = .ok l) :
    (∀ sbad, firstViolation (totalCount counts files) l = some sbad →
        (sbad ≤ 0 ∨ sbad > (totalCount counts files : Int)) ∧
        (∃ pre post, l = pre ++ sbad :: post ∧
          ∀ x ∈ pre, 1 ≤ x ∧ x ≤ (totalCount counts files : Int)) ∧
        (mainRun fs counts now cfg).1 =
          .err (.scenarioNotFound sbad (totalCount counts files)) ∧
        (mainRun fs counts now cfg).2.1.engineInvoked = false) ∧
    (firstViolation (totalCount counts files) l = none ↔
        ∀ x ∈ l, 1 ≤ x ∧ x ≤ (totalCount counts files : Int)) ∧
    (firstViolation (totalCount counts files) l = none →
        (mainRun fs counts now cfg).1 = .ret 0 ∧
        (mainRun fs counts now cfg).2.1.engineInvoked = true) := by
  have hrun := mainRun_discover_ok fs counts now cfg files hd hne
  have hs1 : ({ cfg with marker := resolveMarker cfg.marker now } :
      Config).scenarios = .raw (some s) := by simp [hs]
  refine ⟨?_, firstViolation_eq_none _ _, ?_⟩
  · intro sbad hfv
    obtain ⟨hb, hdec⟩ := firstViolation_eq_some _ _ _ hfv
    refine ⟨hb, hdec, ?_, ?_⟩ <;>
      rw [hrun] <;> simp [scenarioStep, hs, hs0, hp, hfv]
  · intro hfv
    constructor <;> rw [hrun] <;> simp [scenarioStep, hs, hs0, hp, hfv]

/-- C2 witness: against a total of 5 scenarios, the filter "3,1" validates
and the engine is reached (order-independence of validity), while the
filter "0,1" aborts with `ScenarioNotFoundError(0, 5)` before the engine,
although its second entry is valid. -/
theorem C2_scenario_filter_bounds_witness :
    ((mainRun (fun q => if q = "a.feature" then some .file else none)
        (fun _ => 5) 9
        { features := ["a.feature"], basedir := "b",
          marker := .str "time.time()", scenarios := .raw (some "3,1"),
          early_exit := false, others := [] }).1 = .ret 0 ∧
     (mainRun (fun q => if q = "a.feature" then some .file else none)
        (fun _ => 5) 9
        { features := ["a.feature"], basedir := "b",
          marker := .str "time.time()", scenarios := .raw (some "3,1"),
          early_exit := false, others := [] }).2.1.engineInvoked = true) ∧
    ((mainRun (fun q => if q = "a.feature" then some .file else none)
        (fun _ => 5) 9
        { features := ["a.feature"], basedir := "b",
          marker := .str "time.time()", scenarios := .raw (some "0,1"),
          early_exit := false, others := [] }).1 =
        .err (.scenarioNotFound 0 5) ∧
     (mainRun (fun q => if q = "a.feature" then some .file else none)
        (fun _ => 5) 9
        { features := ["a.feature"], basedir := "b",
          marker := .str "time.time()", scenarios := .raw (some "0,1"),
          early_exit := false, others := [] }).2.1.engineInvoked = false) :=
  ⟨(C2_scenario_filter_bounds
      (fun q => if q = "a.feature" then some .file else none) (fun _ => 5) 9
      { features := ["a.feature"], basedir := "b",
        marker := .str "time.time()", scenarios := .raw (some "3,1"),
        early_exit := false, others := [] }
      ["a.feature"] "3,1" [3, 1] (by rfl) (by decide) (by rfl) (by decide)
      (by rfl)).2.2 (by decide),
   ((C2_scenario_filter_bounds
      (fun q => if q = "a.feature" then some .file else none) (fun _ => 5) 9
      { features := ["a.feature"], basedir := "b",
        marker := .str "time.time()", scenarios := .raw (some "0,1"),
        early_exit := false, others := [] }
      ["a.feature"] "0,1" [0, 1] (by rfl) (by decide) (by rfl) (by decide)
      (by rfl)).1 0 (by decide)).2.2⟩

/-- C10: a supplied scenario-filter string is split on commas and each token
converted by Python `int`: success yields exactly the token-wise integer
list, preserving entry order and duplicates (a pairwise correspondence with
the token list); a malformed token makes the run raise `ValueError` for the
first such token and the execution engine is never invoked. -/
theorem C10_scenario_filter_parsing (toks : List String) (l : List Int)
    (fs : FileSystem) (counts : String → Nat) (now : Nat) (cfg : Config)
    (files : List String) (s tok : String) :
    (parseScenarioTokens toks = .ok l ↔
      List.Forall₂ (fun t n => pyInt? t = some n) toks l) ∧
    (discoverFiles fs cfg.features = .ok files → files ≠ [] →
      cfg.scenarios = .raw (some s) → s ≠ "" →
      parseScenarioTokens (splitCommas s) = .error tok →
      tok ∈ splitCommas s ∧ pyInt? tok = none ∧
      (mainRun fs counts now cfg).1 = .err (.valueError tok) ∧
      (mainRun fs counts now cfg).2.1.engineInvoked = false) := by
  refine ⟨parseScenarioTokens_ok_iff toks l, ?_⟩
  intro hd hne hs hs0 hp
  have hrun := mainRun_discover_ok fs counts now cfg files hd hne
  have hs1 : ({ cfg with marker := resolveMarker cfg.marker now } :
      Config).scenarios = .raw (some s) := by simp [hs]
  obtain ⟨hm, hn⟩ := parseScenarioTokens_error _ _ hp
  refine ⟨hm, hn, ?_, ?_⟩ <;>
    rw [hrun] <;> simp [scenarioStep, hs, hs0, hp]

/-- C10 witness: "3,1,3" parses to the list 3, 1, 3 — order and the
duplicate preserved — while the filter "3,x" raises `ValueError` on the
token "x" and the engine is never invoked. -/
theorem C10_scenario_filter_parsing_witness :
    List.Forall₂ (fun t n => pyInt? t = some n) ["3", "1", "3"]
      ([3, 1, 3] : List Int) ∧
    ("x" ∈ splitCommas "3,x" ∧ pyInt? "x" = none ∧
     (mainRun (fun q => if q = "a.feature" then some .file else none)
        (fun _ => 5) 9
        { features := ["a.feature"], basedir := "b",
          marker := .str "time.time()", scenarios := .raw (some "3,x"),
          early_exit := false, others := [] }).1 = .err (.valueError "x") ∧
     (mainRun (fun q => if q = "a.feature" then some .file else none)
        (fun _ => 5) 9
        { features := ["a.feature"], basedir := "b",
          marker := .str "time.time()", scenarios := .raw (some "3,x"),
          early_exit := false, others := [] }).2.1.engineInvoked = false) :=
  ⟨(C10_scenario_filter_parsing ["3", "1", "3"] [3, 1, 3]
      (fun _ => none) (fun _ => 0) 0
      { features := [], basedir := "", marker := .str "",
        scenarios := .raw none, early_exit := false, others := [] }
      [] "" "").1.mp (by rfl),
   (C10_scenario_filter_parsing [] []
      (fun q => if q = "a.feature" then some .file else none) (fun _ => 5) 9
      { features := ["a.feature"], basedir := "b",
        marker := .str "time.time()", scenarios := .raw (some "3,x"),
        early_exit := false, others := [] }
      ["a.feature"] "3,x" "x").2 (by rfl) (by decide) (by rfl) (by decide)
      (by rfl)⟩

/-- C5 counterexample: the claim says every explicitly supplied marker
value is passed through completely unchanged, but a supplied marker whose
value is exactly the sentinel string "time.time()" is replaced by the
integer epoch-seconds value, not passed through. -/
theorem C5_marker_passthrough_counterexample :
    resolveMarker (.str "time.time()") 1700000000 = .num 1700000000 ∧
    MarkerVal.num 1700000000 ≠ .str "time.time()" := by
  constructor
  · rfl
  · intro h; cases h

/-- C5 amended: marker resolution, performed after all files are parsed and
before the execution engine is invoked, maps a marker equal to the sentinel
string "time.time()" (the encoding of the Default tag) to the wall-clock
epoch seconds at resolution time, and maps every other supplied marker
value to itself unchanged; within a run the resolved value reaching the
engine is exactly this function of the initial marker. -/
theorem C5_marker_resolution_amended (now : Nat) (m : String)
    (hm : m ≠ "time.time()") (fs : FileSystem) (counts : String → Nat)
    (cfg : Config) (files : List String)
    (hd : discoverFiles fs cfg.features = .ok files) (hne : files ≠ []) :
    resolveMarker (.str "time.time()") now = .num now ∧
    resolveMarker (.str m) now = .str m ∧
    ((mainRun fs counts now cfg).2.2).marker = resolveMarker cfg.marker now := by
  refine ⟨rfl, by simp [resolveMarker, hm], ?_⟩
  rw [mainRun_discover_ok fs counts now cfg files hd hne]
  rw [scenarioStep_marker]

/-- C5 witness for the amended claim: with wall clock 1234, the sentinel
resolves to 1234, the explicit marker "release-1" is unchanged, and a
concrete run hands the engine the resolved marker of its initial config. -/
theorem C5_marker_resolution_amended_witness :
    ("release-1" : String) ≠ "time.time()" ∧
    (resolveMarker (.str "time.time()") 1234 = .num 1234 ∧
     resolveMarker (.str "release-1") 1234 = .str "release-1" ∧
     ((mainRun (fun q => if q = "a.feature" then some .file else none)
        (fun _ => 1) 1234
        { features := ["a.feature"], basedir := "b",
          marker := .str "release-1", scenarios := .raw none,
          early_exit := false, others := [] }).2.2).marker =
       resolveMarker (MarkerVal.str "release-1") 1234) :=
  ⟨by decide,
   C5_marker_resolution_amended 1234 "release-1" (by decide)
     (fun q => if q = "a.feature" then some .file else none) (fun _ => 1)
     { features := ["a.feature"], basedir := "b", marker := .str "release-1",
       scenarios := .raw none, early_exit := false, others := [] }
     ["a.feature"] (by rfl) (by decide)⟩

/-- C6: the default marker is the sentinel string "time.time()", so an
explicitly supplied marker equal to that string resolves to the integer
epoch-seconds value, indistinguishable from the default case, while every
other explicit value is left untouched. -/
theorem C6_sentinel_marker_collision (now : Nat) :
    resolveMarker (.str "time.time()") now = .num now ∧
    resolveMarker (.str defaultMarker) now =
      resolveMarker (.str "time.time()") now ∧
    ∀ s, s ≠ "time.time()" → resolveMarker (.str s) now = .str s := by
  refine ⟨rfl, rfl, fun s hs => ?_⟩
  simp [resolveMarker, hs]

/-- C6 witness: at wall clock 77 an explicit marker "time.time()" becomes
the number 77, exactly like the default, and "foo" stays "foo". -/
theorem C6_sentinel_marker_collision_witness :
    resolveMarker (.str "time.time()") 77 = .num 77 ∧
    resolveMarker (.str defaultMarker) 77 =
      resolveMarker (.str "time.time()") 77 ∧
    ("foo" : String) ≠ "time.time()" ∧
    resolveMarker (.str "foo") 77 = .str "foo" :=
  ⟨(C6_sentinel_marker_collision 77).1,
   (C6_sentinel_marker_collision 77).2.1,
   by decide,
   (C6_sentinel_marker_collision 77).2.2 "foo" (by decide)⟩

/-- C7 counterexample: the claim says no field of the run configuration is
mutated after construction, but a run whose marker is the docopt default
leaves `main` with `config.marker` rewritten to the epoch integer (and a
supplied scenario filter is likewise rewritten to an integer list), so the
final configuration differs from the constructed one. -/
theorem C7_config_immutability_counterexample :
    (mainRun (fun q => if q = "a.feature" then some .file else none)
        (fun _ => 2) 7
        { features := ["a.feature"], basedir := "b",
          marker := .str "time.time()", scenarios := .raw (some "2,1"),
          early_exit := false, others := [] }).2.2 ≠
      { features := ["a.feature"], basedir := "b",
        marker := .str "time.time()", scenarios := .raw (some "2,1"),
        early_exit := false, others := [] } ∧
    ((mainRun (fun q => if q = "a.feature" then some .file else none)
        (fun _ => 2) 7
        { features := ["a.feature"], basedir := "b",
          marker := .str "time.time()", scenarios := .raw (some "2,1"),
          early_exit := false, others := [] }).2.2).marker = .num 7 ∧
    ((mainRun (fun q => if q = "a.feature" then some .file else none)
        (fun _ => 2) 7
        { features := ["a.feature"], basedir := "b",
          marker := .str "time.time()", scenarios := .raw (some "2,1"),
          early_exit := false, others := [] }).2.2).scenarios =
      .parsed [2, 1] := by decide

/-- C7 amended: the configuration is built once before discovery; the
feature-paths, base-directory, early-exit and all remaining flag fields are
never mutated by any later step, but marker resolution overwrites the
marker field whenever it equals the sentinel "time.time()", and
scenario-filter validation overwrites the scenarios field with the parsed
integer list whenever a non-empty filter string was supplied; a config
whose marker is not the sentinel and whose filter is absent or empty is
returned entirely unchanged. -/
theorem C7_config_mutation_amended (fs : FileSystem) (counts : String → Nat)
    (now : Nat) (cfg : Config) :
    ((mainRun fs counts now cfg).2.2).features = cfg.features ∧
    ((mainRun fs counts now cfg).2.2).basedir = cfg.basedir ∧
    ((mainRun fs counts now cfg).2.2).early_exit = cfg.early_exit ∧
    ((mainRun fs counts now cfg).2.2).others = cfg.others ∧
    (cfg.marker ≠ .str "time.time()" →
      ((mainRun fs counts now cfg).2.2).marker = cfg.marker) ∧
    ((cfg.scenarios = .raw none ∨ cfg.scenarios = .raw (some "")) →
      ((mainRun fs counts now cfg).2.2).scenarios = cfg.scenarios) ∧
    ((cfg.marker ≠ .str "time.time()" ∧
        (cfg.scenarios = .raw none ∨ cfg.scenarios = .raw (some ""))) →
      (mainRun fs counts now cfg).2.2 = cfg) := by
  rcases hd : discoverFiles fs cfg.features with p | files
  · rw [mainRun_discover_error fs counts now cfg p hd]
    simp
  · rcases hfiles : files with _ | ⟨f, rest⟩
    · subst hfiles
      rw [mainRun_empty fs counts now cfg hd]
      simp
    · rw [hfiles] at hd
      rw [mainRun_discover_ok fs counts now cfg (f :: rest) hd (by simp)]
      obtain ⟨h1, h2, h3, h4⟩ := scenarioStep_base_fields
        { cfg with marker := resolveMarker cfg.marker now }
        (totalCount counts (f :: rest))
        { parsedFiles := f :: rest, loaderInvoked := true, matcherInvoked := true }
      refine ⟨h1, h2, h3, h4, ?_, ?_, ?_⟩
      · intro hm
        rw [scenarioStep_marker { cfg with marker := resolveMarker cfg.marker now }
          (totalCount counts (f :: rest))
          { parsedFiles := f :: rest, loaderInvoked := true, matcherInvoked := true }]
        exact resolveMarker_of_ne cfg.marker now hm
      · intro hsc
        rw [scenarioStep_config_of_no_filter
          { cfg with marker := resolveMarker cfg.marker now }
          (totalCount counts (f :: rest))
          { parsedFiles := f :: rest, loaderInvoked := true, matcherInvoked := true }
          hsc]
      · rintro ⟨hm, hsc⟩
        rw [scenarioStep_config_of_no_filter
          { cfg with marker := resolveMarker cfg.marker now }
          (totalCount counts (f :: rest))
          { parsedFiles := f :: rest, loaderInvoked := true, matcherInvoked := true }
          hsc]
        rw [resolveMarker_of_ne cfg.marker now hm]

/-- C7 witness for the amended claim: a run with an explicit marker and no
filter returns its configuration unchanged; the base fields are unchanged
in any case. -/
theorem C7_config_mutation_amended_witness :
    (MarkerVal.str "m1" ≠ .str "time.time()" ∧
      ((ScenVal.raw none : ScenVal) = .raw none ∨
        (ScenVal.raw none : ScenVal) = .raw (some ""))) ∧
    (mainRun (fun q => if q = "a.feature" then some .file else none)
        (fun _ => 2) 7
        { features := ["a.feature"], basedir := "b", marker := .str "m1",
          scenarios := .raw none, early_exit := true, others := [] }).2.2 =
      { features := ["a.feature"], basedir := "b", marker := .str "m1",
        scenarios := .raw none, early_exit := true, others := [] } :=
  ⟨⟨by decide, Or.inl rfl⟩,
   (C7_config_mutation_amended
     (fun q => if q = "a.feature" then some .file else none) (fun _ => 2) 7
     { features := ["a.feature"], basedir := "b", marker := .str "m1",
       scenarios := .raw none, early_exit := true, others := [] }).2.2.2.2.2.2
     ⟨by decide, Or.inl rfl⟩⟩

/-- C8 counterexample: the claim says a raw-argument mapping containing a
flag name outside the flag table makes construction fail, but
`setup_config` silently accepts the unknown flag "--unknown-flag", storing
it under the mangled attribute name. -/
theorem C8_unknown_flag_counterexample :
    setup_config [("--unknown-flag", .flag true)] =
      [("unknown_flag", ArgValue.flag true)] := by decide

/-- C8 amended: configuration construction derives each attribute name from
the raw flag name by implicit string mangling — deleting "--", "<", ">"
and replacing "-" with "_" — which on the known docopt flags realizes the
documented field table; construction never fails and never drops an entry:
every raw argument, unknown flags included, is stored under its mangled
name. -/
theorem C8_flag_mapping_amended :
    (∀ arguments : List (String × ArgValue),
      (setup_config arguments).length = arguments.length ∧
      ∀ i : Nat, (setup_config arguments)[i]? =
        (arguments[i]?).map (fun kv => (mangleKey kv.1, kv.2))) ∧
    mangleKey "<features>" = "features" ∧
    mangleKey "--basedir" = "basedir" ∧
    mangleKey "--early-exit" = "early_exit" ∧
    mangleKey "--debug-steps" = "debug_steps" ∧
    mangleKey "--debug-after-failure" = "debug_after_failure" ∧
    mangleKey "--inspect-after-failure" = "inspect_after_failure" ∧
    mangleKey "--bdd-xml" = "bdd_xml" ∧
    mangleKey "--no-ansi" = "no_ansi" ∧
    mangleKey "--no-line-jump" = "no_line_jump" ∧
    mangleKey "--write-steps-once" = "write_steps_once" ∧
    mangleKey "--with-traceback" = "with_traceback" ∧
    mangleKey "--marker" = "marker" ∧
    mangleKey "--profile" = "profile" ∧
    mangleKey "--dry-run" = "dry_run" ∧
    mangleKey "--scenarios" = "scenarios" ∧
    mangleKey "--shuffle" = "shuffle" := by
  refine ⟨fun arguments => ⟨?_, fun i => ?_⟩, ?_⟩
  · simp [setup_config]
  · simp [setup_config]
  · repeat refine ⟨by decide, ?_⟩
    decide

/-- C9: every existing path, in argument order, contributes its expansion —
a directory contributes exactly its recursive-glob result in that stored
deterministic order, a plain file contributes itself regardless of suffix —
and discovery returns the concatenation of these expansions with no
deduplication. -/
theorem C9_path_expansion (fs : FileSystem) (paths : List String)
    (h : ∀ p ∈ paths, fs p ≠ none) :
    discoverFiles fs paths = .ok (paths.flatMap (expandPath fs)) ∧
    (∀ p g, fs p = some (.dir g) → expandPath fs p = g) ∧
    (∀ p, fs p = some .file → expandPath fs p = [p]) := by
  refine ⟨discoverFiles_ok fs paths h, ?_, ?_⟩
  · intro p g hp; simp [expandPath, hp]
  · intro p hp; simp [expandPath, hp]

/-- C9 witness: a directory expands to its two globbed files in order, a
plain non-.feature file is appended as-is, and the same file named twice
appears twice (no deduplication). -/
theorem C9_path_expansion_witness :
    (∀ p ∈ ["specs", "notes.txt", "notes.txt"],
      (fun q => if q = "specs" then
          some (FSEntry.dir ["specs/a.feature", "specs/sub/b.feature"])
        else if q = "notes.txt" then some .file else none) p ≠ none) ∧
    discoverFiles
      (fun q => if q = "specs" then
          some (FSEntry.dir ["specs/a.feature", "specs/sub/b.feature"])
        else if q = "notes.txt" then some .file else none)
      ["specs", "notes.txt", "notes.txt"] =
      .ok ["specs/a.feature", "specs/sub/b.feature", "notes.txt", "notes.txt"] := by
  refine ⟨by decide, ?_⟩
  have := (C9_path_expansion
    (fun q => if q = "specs" then
        some (FSEntry.dir ["specs/a.feature", "specs/sub/b.feature"])
      else if q = "notes.txt" then some .file else none)
    ["specs", "notes.txt", "notes.txt"] (by decide)).1
  rw [this]
  rfl

end Radish
